import Mathlib

set_option linter.unusedVariables false

/-!
Shallow embedding of the resolution-modelling core of the `ba_tools` package
(files `ba_tools/instruments/generic.py`, `ba_tools/simulation.py`,
`ba_tools/experiment_base.py`, `ba_tools/parameter_base.py`), together with
theorems settling the specification claims about it.

Floating-point values of the Python code are modelled as exact real (or, for
the generic kernel arithmetic, arbitrary linearly ordered field) numbers;
numpy arrays of intensities are modelled as functions from integer pixel
coordinates to values; the external BornAgain scattering engine is abstracted
as an opaque function from the configured simulation object to a detector
image.
-/

namespace BaTools

/-! ## Off-specular scan state handling (`Simulation.runOffSpecular`) -/

/-- Mutable per-simulation beam state of the experiment object: the
`alpha_i` and `wavelength` attributes that `Simulation.runOffSpecular`
overwrites during a scan (simulation.py lines 170-171). -/
structure BeamState where
  alpha_i : ℚ
  wavelength : ℚ
  deriving DecidableEq

/-- Scan loop of `Simulation.runOffSpecular` (simulation.py lines 169-177).
Each iteration first overwrites the experiment's `alpha_i` and `wavelength`
with the scan point and then runs the per-point GISAS simulation, which may
raise (modelled as `none`, the per-point reduction result itself is not
needed for the state-restoration claim).  Returns the pair of a completion
flag (`false` when an exception propagated out of an iteration) and the
experiment's beam state at the moment the loop is left. -/
def offSpecularLoop (run : BeamState → Option Unit) :
    List (ℚ × ℚ) → BeamState → Bool × BeamState
  | [], st => (true, st)
  | (a, w) :: rest, _ =>
    let st := BeamState.mk a w
    match run st with
    | none => (false, st)
    | some _ => offSpecularLoop run rest st

/-- State behaviour of `Simulation.runOffSpecular` (simulation.py lines
149-185): the pre-call values are saved (`alpha_i0`, `wavelength_0`, lines
162-163), the scan loop runs, and the saved values are written back at lines
182-183.  The write-back is NOT inside a `try`/`finally`, so it is reached
only on normal completion of the loop; when an iteration raises, the
exception propagates with the beam state still holding that iteration's scan
point.  Result: completion flag and the experiment's beam state observed by
the caller afterwards. -/
def runOffSpecular (run : BeamState → Option Unit) (scan : List (ℚ × ℚ))
    (s0 : BeamState) : Bool × BeamState :=
  match offSpecularLoop run scan s0 with
  | (true, _) => (true, BeamState.mk s0.alpha_i s0.wavelength)
  | (false, st) => (false, st)

/-! ## Generic kernel arithmetic of `GenericSANS.apply_fast_resolution`

The angular-resolution branches build their convolution kernel from four
angles derived by `arctan2` from the geometry.  The kernel arithmetic itself
is defined here over an arbitrary linearly ordered field with a floor
function, so that it can be instantiated at `ℝ` (as composed with `arctan2`
in `apply_fast_resolution` below) and evaluated exactly at `ℚ`. -/

/-- Python `int()` applied to a number: truncation toward zero. -/
def truncInt {α : Type} [LinearOrderedField α] [FloorRing α] (x : α) : ℤ :=
  if 0 ≤ x then ⌊x⌋ else -⌊-x⌋

section FastKernel

variable {α : Type} [LinearOrderedField α] [FloorRing α]

/-- Element `i` of `numpy.linspace(a, b, n)` (`n` evenly spaced points from
`a` to `b` inclusive; for `n = 1` numpy returns just `[a]`). -/
def linspace (a b : α) (n : ℕ) (i : ℕ) : α :=
  if n = 1 then a else a + (i : α) * ((b - a) / ((n : α) - 1))

/-- Horizontal kernel size `kernel_width = int(2 * max_hw / angle_per_pixel) + 1`
(generic.py lines 134 and 156). -/
def kernel_width (app max_hw : α) : ℤ :=
  truncInt (2 * max_hw / app) + 1

/-- Vertical kernel size `kernel_height = int(2 * alpha_res / angle_per_pixel) + 1`
(generic.py lines 131 and 177). -/
def kernel_height (app alpha_res : α) : ℤ :=
  truncInt (2 * alpha_res / app) + 1

/-- Entry `c` of the azimuthal trapezoid profile of the kernel
(generic.py lines 135-143):
`where(abs(dx) < min_hw/app, 1.0, maximum(1.0 - (abs(dx) - min_hw/app) / (max_hw - min_hw) * app, 0.0))`
evaluated at `dx = linspace(-kernel_width/2, kernel_width/2, kernel_width)[c]`. -/
def phiProfile (app max_hw min_hw : α) (w : ℕ) (c : ℕ) : α :=
  let dx := linspace (-(w : α) / 2) ((w : α) / 2) w c
  if |dx| < min_hw / app then 1
  else max (1 - (|dx| - min_hw / app) / (max_hw - min_hw) * app) 0

/-- Raw (pre-normalisation) weight sum `norm = kernel.sum()` of the
`alpha and phi` branch (generic.py line 144), whose kernel is the outer
product `ones(kernel_height) ⊗ profile` (lines 136-143). -/
def rawSum_alpha_phi (app alpha_res max_hw min_hw : α) : α :=
  ∑ r in Finset.range (kernel_height app alpha_res).toNat,
    ∑ c in Finset.range (kernel_width app max_hw).toNat,
      1 * phiProfile app max_hw min_hw (kernel_width app max_hw).toNat c

/-- Raw weight sum of the `phi`-only branch (generic.py line 166), whose
kernel is `ones(1) ⊗ profile` (lines 158-165). -/
def rawSum_phi (app max_hw min_hw : α) : α :=
  ∑ r in Finset.range 1,
    ∑ c in Finset.range (kernel_width app max_hw).toNat,
      1 * phiProfile app max_hw min_hw (kernel_width app max_hw).toNat c

/-- Raw weight sum of the `alpha`-only branch (generic.py line 179), whose
kernel is `ones(kernel_height) ⊗ ones(1)` (line 178). -/
def rawSum_alpha (app alpha_res : α) : α :=
  ∑ r in Finset.range (kernel_height app alpha_res).toNat,
    ∑ c in Finset.range 1, (1 : α) * 1

/-- Sum of the weights of the normalised kernel (`kernel /= norm`, generic.py
line 147) of the `alpha and phi` branch. -/
def normSum_alpha_phi (app alpha_res max_hw min_hw : α) : α :=
  ∑ r in Finset.range (kernel_height app alpha_res).toNat,
    ∑ c in Finset.range (kernel_width app max_hw).toNat,
      1 * phiProfile app max_hw min_hw (kernel_width app max_hw).toNat c /
        rawSum_alpha_phi app alpha_res max_hw min_hw

/-- Sum of the weights of the normalised kernel (generic.py line 169) of the
`phi`-only branch. -/
def normSum_phi (app max_hw min_hw : α) : α :=
  ∑ r in Finset.range 1,
    ∑ c in Finset.range (kernel_width app max_hw).toNat,
      1 * phiProfile app max_hw min_hw (kernel_width app max_hw).toNat c /
        rawSum_phi app max_hw min_hw

/-- Sum of the weights of the normalised kernel (generic.py line 182) of the
`alpha`-only branch. -/
def normSum_alpha (app alpha_res : α) : α :=
  ∑ r in Finset.range (kernel_height app alpha_res).toNat,
    ∑ c in Finset.range 1, (1 : α) * 1 / rawSum_alpha app alpha_res

/-- A detector image: intensity as a function of integer pixel coordinates
(row, column). -/
def Image (α : Type) : Type := ℤ → ℤ → α

/-- Linear ("same"-mode, non-circular) 2-D convolution of an image with a
`kh × kw` kernel, cropped to the input's shape — the operation
`scipy.signal.fftconvolve(data, kernel, mode="same")` computes (the
frequency-domain evaluation is numerically the same linear convolution). -/
def conv2same (kh kw : ℕ) (kernel : ℕ → ℕ → α) (data : Image α) : Image α :=
  fun i j =>
    ∑ r in Finset.range kh, ∑ c in Finset.range kw,
      kernel r c * data (i + ((kh : ℤ) - 1) / 2 - (r : ℤ)) (j + ((kw : ℤ) - 1) / 2 - (c : ℤ))

/-- The `alpha and phi` branch of `GenericSANS.apply_fast_resolution`
(generic.py lines 125-148), with the four `arctan2`-derived geometry angles
as arguments: build the kernel `ones(kernel_height) ⊗ profile`, and if its
raw sum `norm` is `0.0` return the incoming data unchanged, otherwise
convolve with the kernel divided by `norm`. -/
def smear_alpha_phi (app alpha_res max_hw min_hw : α) (data : Image α) : Image α :=
  let kh := (kernel_height app alpha_res).toNat
  let kw := (kernel_width app max_hw).toNat
  let kernel : ℕ → ℕ → α := fun _r c => 1 * phiProfile app max_hw min_hw kw c
  let norm := rawSum_alpha_phi app alpha_res max_hw min_hw
  if norm = 0 then data
  else conv2same kh kw (fun r c => kernel r c / norm) data

/-- The `phi`-only branch of `GenericSANS.apply_fast_resolution`
(generic.py lines 149-170): kernel `ones(1) ⊗ profile`, same zero-sum
fallback. -/
def smear_phi (app max_hw min_hw : α) (data : Image α) : Image α :=
  let kw := (kernel_width app max_hw).toNat
  let kernel : ℕ → ℕ → α := fun _r c => 1 * phiProfile app max_hw min_hw kw c
  let norm := rawSum_phi app max_hw min_hw
  if norm = 0 then data
  else conv2same 1 kw (fun r c => kernel r c / norm) data

/-- The `alpha`-only branch of `GenericSANS.apply_fast_resolution`
(generic.py lines 171-183): kernel `ones(kernel_height) ⊗ ones(1)`, same
zero-sum fallback. -/
def smear_alpha (app alpha_res : α) (data : Image α) : Image α :=
  let kh := (kernel_height app alpha_res).toNat
  let kernel : ℕ → ℕ → α := fun _r _c => (1 : α) * 1
  let norm := rawSum_alpha app alpha_res
  if norm = 0 then data
  else conv2same kh 1 (fun r c => kernel r c / norm) data

end FastKernel

/-! ## Real-valued instrument model (`GenericSANS` and its geometry) -/

noncomputable section RealModel

/-- Function `numpy.arctan2(y, x)`: the angle of the point `(x, y)`, in
`(-π, π]`, equal to `arctan (y / x)` whenever `x > 0`. -/
def arctan2 (y x : ℝ) : ℝ :=
  if 0 < x then Real.arctan (y / x)
  else if x < 0 then
    (if 0 ≤ y then Real.arctan (y / x) + Real.pi else Real.arctan (y / x) - Real.pi)
  else
    (if 0 < y then Real.pi / 2 else if y < 0 then -(Real.pi / 2) else 0)

/-- External BornAgain unit constant `millimeter` (the BornAgain base length
unit is the nanometre, so `millimeter = 1e6`). -/
def mm : ℝ := 1000000

/-- Unit constant `m = mm * 1000.0` (generic.py line 13; same value in
`SUPPORTED_UNITS["m"]`, parameter_base.py line 16). -/
def m : ℝ := mm * 1000

/-- External BornAgain unit constant `angstrom` (`0.1` in base units). -/
def angstrom : ℝ := 1 / 10

/-- External BornAgain unit constant `deg` (the base angle unit is the
radian, so `deg = π / 180`). -/
def deg : ℝ := Real.pi / 180

/-- The `GenericSANS.Config` dataclass (generic.py lines 24-31), holding the
class-level instrument configuration in BornAgain base units.
`detector_pixels` is a plain `int` field with no unit metadata. -/
structure Config where
  guide_size : ℝ
  detector_size : ℝ
  detector_pixels : ℕ
  center_x_pix : ℝ
  center_y_pix : ℝ
  dlambda_rel : ℝ

/-- Keyword arguments accepted by `GenericSANS.Config(**kwargs)`: any subset
of the config fields, given in display units (`mm` for the two sizes). -/
structure ConfigKwargs where
  guide_size : Option ℝ
  detector_size : Option ℝ
  detector_pixels : Option ℕ
  center_x_pix : Option ℝ
  center_y_pix : Option ℝ
  dlambda_rel : Option ℝ

/-- Construction `cls.Config(**kwargs)` (experiment_base.py line 54):
dataclass defaults (generic.py lines 26-31: `guide_size=50 mm`,
`detector_size=1000 mm`, `detector_pixels=200`, `center_x_pix=100.0`,
`center_y_pix=100.0`, `dlambda_rel=0.1`) for every missing keyword,
followed by `Parametered.__post_init__` (parameter_base.py lines 46-54),
which multiplies each field declared with `pp(value, "mm")` by the `mm`
unit constant. -/
def mkConfig (kw : ConfigKwargs) : Config :=
  Config.mk
    (kw.guide_size.getD 50 * mm)
    (kw.detector_size.getD 1000 * mm)
    (kw.detector_pixels.getD 200)
    (kw.center_x_pix.getD 100)
    (kw.center_y_pix.getD 100)
    (kw.dlambda_rel.getD (1 / 10))

/-- The explicit `config` argument of `Experiment.set_config`: absent
(`None`), an instance of the class's `Config`, or a value of any other type
(for which `isinstance(config, cls.Config)` is false). -/
inductive ConfigArg
  | noArg
  | conf (c : Config)
  | notConf

/-- Class method `Experiment.set_config` (experiment_base.py lines 42-57),
acting on the class-level `_config` attribute `cur`.  When `config is None`
a new `cls.Config(**kwargs)` is built; then, unless
`isinstance(config, cls.Config)` holds, a `TypeError` is raised — before the
assignment `cls._config = config` is reached.  Returns the pair of a
raised-`TypeError` flag and the class-level configuration afterwards. -/
def set_config (cur : Config) (arg : ConfigArg) (kw : ConfigKwargs) :
    Bool × Config :=
  match arg with
  | ConfigArg.noArg => (false, mkConfig kw)
  | ConfigArg.conf c => (false, c)
  | ConfigArg.notConf => (true, cur)

/-- The `GenericSANS` experiment dataclass (generic.py lines 16-33): beam
intensity and background inherited from `Experiment` (experiment_base.py
lines 26-27), the five instrument parameters, and the (class-level)
configuration, all stored in BornAgain base units. -/
structure GenericSANS where
  I0 : ℝ
  Ibg : ℝ
  alpha_i : ℝ
  wavelength : ℝ
  collimation_length : ℝ
  detector_distance : ℝ
  sample_size : ℝ
  config : Config

/-- Dataclass construction of `GenericSANS` (generic.py lines 16-22)
followed by `Parametered.__post_init__` unit scaling (parameter_base.py
lines 46-54): arguments are in the display units declared by `pp`
(`deg`, `angstrom`, `m`, `m`, `mm`).  No validation of any argument is
performed anywhere in the constructor. -/
def mkGenericSANS (alpha_i wavelength collimation_length detector_distance
    sample_size : ℝ) (config : Config) : GenericSANS :=
  GenericSANS.mk 1 0 (alpha_i * deg) (wavelength * angstrom)
    (collimation_length * m) (detector_distance * m) (sample_size * mm) config

/-- The bornagain `DistributionGate(min, max)` parameter distribution:
uniform on the interval `[xmin, xmax]`. -/
structure DistributionGate where
  xmin : ℝ
  xmax : ℝ

/-- The bornagain
`DistributionTrapezoid(center, left_width, middle_width, right_width)`
parameter distribution: a plateau of width `middle` centred at `center`
with linear flanks of widths `left` and `right`; its support width is
`left + middle + right`. -/
structure DistributionTrapezoid where
  center : ℝ
  left : ℝ
  middle : ℝ
  right : ℝ

/-- Total support width `left + middle + right` of a trapezoid
distribution. -/
def supportWidth (d : DistributionTrapezoid) : ℝ :=
  d.left + d.middle + d.right

/-- Property `GenericSANS.res_wavelength` (generic.py lines 54-58):
`fwhm = dlambda_rel * wavelength`;
`DistributionTrapezoid(wavelength, fwhm, 0.0, fwhm)`. -/
def res_wavelength (e : GenericSANS) : DistributionTrapezoid :=
  let fwhm := e.config.dlambda_rel * e.wavelength
  DistributionTrapezoid.mk e.wavelength fwhm 0 fwhm

/-- Property `GenericSANS.res_alpha` (generic.py lines 60-64):
`hwhm = arctan2(guide_size / 2.0, collimation_length)`;
`DistributionGate(alpha_i - hwhm, alpha_i + hwhm)`. -/
def res_alpha (e : GenericSANS) : DistributionGate :=
  let hwhm := arctan2 (e.config.guide_size / 2) e.collimation_length
  DistributionGate.mk (e.alpha_i - hwhm) (e.alpha_i + hwhm)

/-- Property `GenericSANS.res_phi` (generic.py lines 66-71):
`max_hw = arctan2((guide_size + sample_size) / 2.0, collimation_length)`,
`min_hw = arctan2((guide_size - sample_size) / 2.0, collimation_length)`;
`DistributionTrapezoid(0.0, max_hw - min_hw, 2 * min_hw, max_hw - min_hw)`.
No clamping of any kind is applied to `min_hw`. -/
def res_phi (e : GenericSANS) : DistributionTrapezoid :=
  let max_hw := arctan2 ((e.config.guide_size + e.sample_size) / 2) e.collimation_length
  let min_hw := arctan2 ((e.config.guide_size - e.sample_size) / 2) e.collimation_length
  DistributionTrapezoid.mk 0 (max_hw - min_hw) (2 * min_hw) (max_hw - min_hw)

/-- Pixel angular size
`angle_per_pixel = arctan2(detector_size / detector_pixels, detector_distance)`
(generic.py lines 129, 153 and 175). -/
def anglePerPixel (e : GenericSANS) : ℝ :=
  arctan2 (e.config.detector_size / (e.config.detector_pixels : ℝ)) e.detector_distance

/-- Vertical aperture half-angle
`alpha_res = arctan2(guide_size / 2.0, collimation_length)`
(generic.py lines 130 and 176). -/
def alphaRes (e : GenericSANS) : ℝ :=
  arctan2 (e.config.guide_size / 2) e.collimation_length

/-- Azimuthal full half-width
`max_hw = arctan2((guide_size + sample_size) / 2.0, collimation_length)`
(generic.py lines 132 and 154). -/
def maxHw (e : GenericSANS) : ℝ :=
  arctan2 ((e.config.guide_size + e.sample_size) / 2) e.collimation_length

/-- Azimuthal plateau half-width
`min_hw = arctan2((guide_size - sample_size) / 2.0, collimation_length)`
(generic.py lines 133 and 155). -/
def minHw (e : GenericSANS) : ℝ :=
  arctan2 ((e.config.guide_size - e.sample_size) / 2) e.collimation_length

/-- The `wavelengt` branch of `GenericSANS.apply_fast_resolution`
(generic.py lines 82-123): per-pixel weighted local averaging in polar
coordinates around the beam centre.  For each pixel `(i, j)` of the
`npix × npix` detector, `Rij = R[j, i]` and `Phiij = Phi[j, i]` are the
distance and polar angle of `(j - center_x_pix, i - center_y_pix)`;
the neighbourhood half-sizes are
`i_range = int(2 * Rij * res_max * abs(cos(Phiij)))` and
`j_range = int(2 * Rij * res_max * abs(sin(Phiij)))`; pixels whose
neighbourhood leaves `[0, npix - 1)` in either direction or degenerates
(`max(i_range, j_range) < 2`) are passed through unchanged; otherwise the
neighbours along the dominant direction are averaged with the triangular
weights `0.5 - abs(k) / range` for `k` in the Python range
`range(-range // 2, range // 2 + 1)` and the result divided by the weight
sum `N`.  Outside the detector the result array stays `zeros_like(data)`. -/
def wavelengthSmear (npix : ℕ) (cx cy res_max : ℝ) (data : Image ℝ) : Image ℝ :=
  fun i j =>
    if 0 ≤ i ∧ i < (npix : ℤ) ∧ 0 ≤ j ∧ j < (npix : ℤ) then
      let Rij : ℝ := Real.sqrt (((j : ℝ) - cx) ^ 2 + ((i : ℝ) - cy) ^ 2)
      let Phiij : ℝ := arctan2 ((j : ℝ) - cx) ((i : ℝ) - cy)
      let res_pts : ℝ := Rij * res_max
      let i_range : ℤ := truncInt (2 * res_pts * |Real.cos Phiij|)
      let j_range : ℤ := truncInt (2 * res_pts * |Real.sin Phiij|)
      if i - i_range < 0 ∨ j - j_range < 0 ∨ (npix : ℤ) - 1 ≤ i + i_range ∨
          (npix : ℤ) - 1 ≤ j + j_range ∨ max i_range j_range < 2 then
        data i j
      else if j_range < i_range then
        let ij_scale : ℝ := (j_range : ℝ) / (i_range : ℝ)
        let ks := Finset.Icc (Int.fdiv (-i_range) 2) (Int.fdiv i_range 2)
        (∑ k in ks, (1 / 2 - |(k : ℝ)| / (i_range : ℝ)) *
            data (i + k) (j + truncInt ((k : ℝ) * ij_scale))) /
          ∑ k in ks, (1 / 2 - |(k : ℝ)| / (i_range : ℝ))
      else
        let ij_scale : ℝ := (i_range : ℝ) / (j_range : ℝ)
        let ks := Finset.Icc (Int.fdiv (-j_range) 2) (Int.fdiv j_range 2)
        (∑ k in ks, (1 / 2 - |(k : ℝ)| / (j_range : ℝ)) *
            data (i + truncInt ((k : ℝ) * ij_scale)) (j + k)) /
          ∑ k in ks, (1 / 2 - |(k : ℝ)| / (j_range : ℝ))
    else 0

/-- Method `GenericSANS.apply_fast_resolution(data, wavelengt, alpha, phi)`
(generic.py lines 73-184): optional wavelength-smearing pass first (lines
82-123), then exactly one of the three angular-convolution branches
according to the flags (`alpha and phi`, `elif phi`, `elif alpha`), each
instantiated with the `arctan2`-derived geometry angles; with no flag set
the data is returned as-is. -/
def apply_fast_resolution (e : GenericSANS) (data : Image ℝ)
    (wavelengt alpha phi : Bool) : Image ℝ :=
  let data1 :=
    if wavelengt then
      wavelengthSmear e.config.detector_pixels e.config.center_x_pix
        e.config.center_y_pix e.config.dlambda_rel data
    else data
  if alpha && phi then
    smear_alpha_phi (anglePerPixel e) (alphaRes e) (maxHw e) (minHw e) data1
  else if phi then
    smear_phi (anglePerPixel e) (maxHw e) (minHw e) data1
  else if alpha then
    smear_alpha (anglePerPixel e) (alphaRes e) data1
  else data1

/-! ## Simulation assembly (`Simulation.GISANS` / `Simulation.runGISANS`) -/

/-- The `bornagain.ParameterDistribution` identifiers used by
`Simulation.GISANS` (simulation.py lines 95, 99 and 102). -/
inductive BeamParameter
  | BeamWavelength
  | BeamInclinationAngle
  | BeamAzimuthalAngle
  deriving DecidableEq

/-- A 1-D resolution distribution handed to the engine: one of the two
concrete bornagain distribution types built by `GenericSANS`. -/
inductive Distribution1D
  | gate (g : DistributionGate)
  | trapezoid (t : DistributionTrapezoid)

/-- The `ResolutionOptions` dataclass (simulation.py lines 40-55): signed
per-axis bin counts. -/
structure ResolutionOptions where
  wavelength_bins : ℤ
  alpha_bins : ℤ
  phi_bins : ℤ

/-- The `GISASSimulation` object as configured by `Simulation.GISANS`
(simulation.py lines 84-132): beam parameters, the specular flag, the list
of added parameter distributions (each a named beam parameter paired with a
distribution and its bin count, in the order they are added), the optional
constant background and the average-material toggle.  The sample structure
and detector are built from the external collaborators and play no role in
the claims, so they are not recorded. -/
structure GISASSim where
  beam_intensity : ℝ
  beam_wavelength : ℝ
  beam_alpha : ℝ
  includeSpecular : Bool
  distributions : List (BeamParameter × Distribution1D × ℤ)
  background : Option ℝ
  useAvgMaterials : Bool

/-- Method `Simulation.GISANS(resopts)` (simulation.py lines 84-132) for a
`GenericSANS` experiment: the wavelength, inclination and azimuthal
distributions are added — in this order — exactly when the corresponding
bin count is `> 0`, each with exactly that bin count (lines 92-102); the
background is set only when `Ibg != 0.0` (lines 127-128);
`include_specular` is the class attribute `True` (line 75). -/
def GISANS (e : GenericSANS) (avg_material : Bool) (resopts : ResolutionOptions) :
    GISASSim :=
  let d0 : List (BeamParameter × Distribution1D × ℤ) := []
  let d1 :=
    if resopts.wavelength_bins > 0 then
      d0 ++ [(BeamParameter.BeamWavelength,
        Distribution1D.trapezoid (res_wavelength e), resopts.wavelength_bins)]
    else d0
  let d2 :=
    if resopts.alpha_bins > 0 then
      d1 ++ [(BeamParameter.BeamInclinationAngle,
        Distribution1D.gate (res_alpha e), resopts.alpha_bins)]
    else d1
  let d3 :=
    if resopts.phi_bins > 0 then
      d2 ++ [(BeamParameter.BeamAzimuthalAngle,
        Distribution1D.trapezoid (res_phi e), resopts.phi_bins)]
    else d2
  GISASSim.mk e.I0 e.wavelength e.alpha_i true d3
    (if e.Ibg ≠ 0 then some e.Ibg else none) avg_material

/-- Method `Simulation.runGISANS(resopts)` (simulation.py lines 134-147):
the per-axis fast flags are `bins < 0`; if any of them is set, the
simulation built by `GISANS(resopts)` is run and `apply_fast_resolution`
is applied to its image with those flags; otherwise the image of the
`GISANS(resopts)` run is returned as-is.  The external engine
(`sim.runSimulation(); sim.result().array()`) is abstracted as a function
from the configured simulation object to a detector image. -/
def runGISANS (engine : GISASSim → Image ℝ) (e : GenericSANS) (avg : Bool)
    (resopts : ResolutionOptions) : Image ℝ :=
  let fast_wl := decide (resopts.wavelength_bins < 0)
  let fast_alpha := decide (resopts.alpha_bins < 0)
  let fast_phi := decide (resopts.phi_bins < 0)
  if fast_wl || fast_alpha || fast_phi then
    apply_fast_resolution e (engine (GISANS e avg resopts)) fast_wl fast_alpha fast_phi
  else
    engine (GISANS e avg resopts)

/-! ## Concrete instances used by witnesses and counterexamples -/

/-- The default configuration, in consistent display units (`mm`-free
values, for use with the spec's consistent-unit test geometries). -/
def cfg50 : Config := Config.mk 50 1000 200 100 100 (1 / 10)

/-- Test geometry of the spec: `aperture = 50`, `collimation = 10000`,
`sample = 20`, incidence `1`, wavelength `6`, all in consistent units. -/
def exp50 : GenericSANS := GenericSANS.mk 1 0 1 6 10000 10000 20 cfg50

/-- Same geometry with `sample_size = 60 > guide_size = 50`. -/
def expWideSample : GenericSANS := GenericSANS.mk 1 0 1 6 10000 10000 60 cfg50

/-- Same geometry with `sample_size = 50 = guide_size`. -/
def expEqSample : GenericSANS := GenericSANS.mk 1 0 1 6 10000 10000 50 cfg50

/-- A geometry whose fast-resolution kernel has raw weight sum exactly zero:
`sample_size = 60 > guide_size = 50` makes `min_hw` negative (empty
plateau) and a single-pixel detector (`detector_pixels = 1`) at distance
`1` makes the pixel angular size so large that the kernel is a single cell
lying entirely outside the trapezoid's support. -/
def expZeroKernel : GenericSANS :=
  GenericSANS.mk 1 0 1 6 10000 1 60 (Config.mk 50 1000 1 100 100 (1 / 10))

/-- A `GenericSANS` built through the dataclass constructor with a
sample-to-detector distance of zero. -/
def expZeroDistance : GenericSANS :=
  mkGenericSANS 1 6 10 0 20 (mkConfig (ConfigKwargs.mk none none none none none none))

/-- A concrete real-valued detector image. -/
def dataR : Image ℝ := fun _ _ => 3

/-- A concrete rational-valued detector image. -/
def dataW : Image ℚ := fun _ _ => 5

/-- A concrete abstract engine: maps every configured simulation to the
uniform unit image. -/
def engine0 : GISASSim → Image ℝ := fun _ => fun _ _ => 1

/-- Resolution options mixing an exact axis (`wavelength_bins = 5`) with a
fast axis (`phi_bins = -1`), as in the shipped preset
`FAST_RES = ResolutionOptions(5, 5, -1)` (simulation.py line 59). -/
def mixedOpts : ResolutionOptions := ResolutionOptions.mk 5 0 (-1)

end RealModel

/-! ## Theorems -/

/-- Claim C1, counterexample: when the single iteration of the scan
`[(2, 3)]` raises, `runOffSpecular` propagates the exception without
restoring the experiment state — afterwards `alpha_i`/`wavelength` hold the
scan-point values `(2, 3)`, not the pre-call values `(1, 6)`, because the
restoration at simulation.py lines 182-183 is not inside a `try`/`finally`. -/
theorem runOffSpecular_raise_counterexample :
    (runOffSpecular (fun _ => none) [((2 : ℚ), (3 : ℚ))] (BeamState.mk 1 6)).2 ≠
      BeamState.mk 1 6 := by
  decide

/-- Claim C1 (amended): after `runOffSpecular` completes a scan normally
(without an exception propagating from an iteration), the experiment's
`alpha_i` and `wavelength` equal their exact pre-call values; when an
exception propagates, they instead retain that iteration's scan values. -/
theorem runOffSpecular_restores_state (run : BeamState → Option Unit)
    (scan : List (ℚ × ℚ)) (s0 : BeamState)
    (h : (runOffSpecular run scan s0).1 = true) :
    (runOffSpecular run scan s0).2 = s0 := by
  unfold runOffSpecular at h ⊢
  rcases hl : offSpecularLoop run scan s0 with ⟨b, st⟩
  cases b
  · rw [hl] at h
    exact Bool.noConfusion h
  · rfl

/-- Witness for `runOffSpecular_restores_state`: a concrete non-empty scan
that completes normally and ends with the pre-call state restored. -/
theorem runOffSpecular_restores_state_witness :
    (runOffSpecular (fun _ => some ()) [((2 : ℚ), (3 : ℚ))] (BeamState.mk 1 6)).1 = true ∧
      (runOffSpecular (fun _ => some ()) [((2 : ℚ), (3 : ℚ))] (BeamState.mk 1 6)).2 =
        BeamState.mk 1 6 :=
  ⟨by decide, runOffSpecular_restores_state _ _ _ (by decide)⟩

/-- Claim C10: `set_config` raises `TypeError` on an explicit argument that
is not a `Config` instance and leaves the class-level configuration
unchanged; with no explicit argument it installs a fresh
`Config(**kwargs)`, missing fields at their (unit-scaled) defaults; an
explicit `Config` instance is installed as given. -/
theorem set_config_behavior (cur : Config) (kw : ConfigKwargs) :
    set_config cur ConfigArg.notConf kw = (true, cur) ∧
    set_config cur ConfigArg.noArg kw = (false, mkConfig kw) ∧
    (∀ c : Config, set_config cur (ConfigArg.conf c) kw = (false, c)) ∧
    mkConfig (ConfigKwargs.mk none none none none none none) =
      Config.mk (50 * mm) (1000 * mm) 200 100 100 (1 / 10) :=
  ⟨rfl, rfl, fun _ => rfl, rfl⟩

/-- Claim C9: calling `apply_fast_resolution` with all three axis flags
false runs no smearing pass at all and returns the input image identically. -/
theorem apply_fast_resolution_no_flags_id (e : GenericSANS) (data : Image ℝ) :
    apply_fast_resolution e data false false false = data := rfl

/-- Claim C8, counterexample: for the default geometry
(`dlambda_rel = 0.1`, `wavelength = 6`) the total support width of the
wavelength trapezoid, `left + middle + right = 0.6 + 0 + 0.6 = 1.2`, does
not equal `relative_spread × wavelength = 0.6`: the code passes
`DistributionTrapezoid(wavelength, fwhm, 0.0, fwhm)`, so the total width is
twice the claimed value. -/
theorem res_wavelength_total_width_counterexample :
    supportWidth (res_wavelength exp50) ≠
      exp50.config.dlambda_rel * exp50.wavelength := by
  norm_num [supportWidth, res_wavelength, exp50, cfg50]

/-- Claim C8 (amended): `res_wavelength` is a trapezoid centred at the
nominal wavelength with plateau width 0 and flank widths
`relative_spread × wavelength` each — a triangle whose full width at half
maximum is `relative_spread × wavelength` and whose total support width is
`2 × relative_spread × wavelength`. -/
theorem res_wavelength_triangle (e : GenericSANS) :
    (res_wavelength e).center = e.wavelength ∧
    (res_wavelength e).middle = 0 ∧
    (res_wavelength e).left = e.config.dlambda_rel * e.wavelength ∧
    (res_wavelength e).right = e.config.dlambda_rel * e.wavelength ∧
    supportWidth (res_wavelength e) = 2 * (e.config.dlambda_rel * e.wavelength) := by
  refine ⟨rfl, rfl, rfl, rfl, ?_⟩
  show e.config.dlambda_rel * e.wavelength + 0 + e.config.dlambda_rel * e.wavelength = _
  ring

/-- Claim C3: for every geometry whose raw kernel weight sum is non-zero,
the normalised convolution kernel of each angular branch of
`apply_fast_resolution` (outer product of the per-axis profiles divided by
its raw sum) has weights summing to 1 within tolerance `1e-9` (in exact
arithmetic the sum is exactly 1). -/
theorem kernel_normalization {α : Type} [LinearOrderedField α] [FloorRing α]
    (app alpha_res max_hw min_hw : α) :
    (rawSum_alpha_phi app alpha_res max_hw min_hw ≠ 0 →
      |normSum_alpha_phi app alpha_res max_hw min_hw - 1| ≤ 1 / 1000000000) ∧
    (rawSum_phi app max_hw min_hw ≠ 0 →
      |normSum_phi app max_hw min_hw - 1| ≤ 1 / 1000000000) ∧
    (rawSum_alpha app alpha_res ≠ 0 →
      |normSum_alpha app alpha_res - 1| ≤ 1 / 1000000000) := by
  refine ⟨fun h => ?_, fun h => ?_, fun h => ?_⟩
  · have h1 : normSum_alpha_phi app alpha_res max_hw min_hw = 1 := by
      simp only [normSum_alpha_phi, ← Finset.sum_div]
      exact div_self h
    rw [h1]
    simp
  · have h1 : normSum_phi app max_hw min_hw = 1 := by
      simp only [normSum_phi, ← Finset.sum_div]
      exact div_self h
    rw [h1]
    simp
  · have h1 : normSum_alpha app alpha_res = 1 := by
      simp only [normSum_alpha, ← Finset.sum_div]
      exact div_self h
    rw [h1]
    simp

/-- Helper: when the kernel degenerates to a single column
(`2 * max_hw < angle_per_pixel`), the kernel width is one pixel. -/
theorem singleCellWidth (app maxv : ℝ) (happ : 0 < app) (hmaxv : 0 ≤ maxv)
    (hkey : 2 * maxv < app) : (kernel_width app maxv).toNat = 1 := by
  have hq0 : 0 ≤ 2 * maxv / app := div_nonneg (by linarith) happ.le
  have hq1 : 2 * maxv / app < 1 := (div_lt_one happ).mpr hkey
  have h : kernel_width app maxv = 1 := by
    unfold kernel_width truncInt
    rw [if_pos hq0, Int.floor_eq_zero_iff.mpr ⟨hq0, hq1⟩]
    decide
  rw [h]
  rfl

/-- Helper: with a negative plateau half-width (`min_hw < 0`, i.e.
`sample_size > guide_size`) and a single-cell kernel, the only profile
entry lies past the trapezoid flank and its weight is zero. -/
theorem singleCellProfile_zero (app maxv minv : ℝ) (happ : 0 < app)
    (hmaxv : 0 ≤ maxv) (hminv : minv < 0) (hkey : 2 * maxv < app) :
    phiProfile app maxv minv 1 0 = 0 := by
  have hdx : linspace (-((1 : ℕ) : ℝ) / 2) (((1 : ℕ) : ℝ) / 2) 1 0 = -(1 / 2) := by
    norm_num [linspace]
  have habs : |(-(1 / 2) : ℝ)| = 1 / 2 := by
    rw [abs_neg]
    exact abs_of_nonneg (by norm_num)
  have hcond : ¬ ((1 : ℝ) / 2 < minv / app) := by
    have : minv / app < 0 := div_neg_of_neg_of_pos hminv happ
    linarith
  have hD : 0 < maxv - minv := by linarith
  have hX : (1 / 2 - minv / app) / (maxv - minv) * app = (app / 2 - minv) / (maxv - minv) := by
    field_simp
    ring
  have hle : 1 - (1 / 2 - minv / app) / (maxv - minv) * app ≤ 0 := by
    rw [hX]
    have h1 : 1 ≤ (app / 2 - minv) / (maxv - minv) := by
      rw [le_div_iff₀ hD]
      linarith
    linarith
  simp only [phiProfile, hdx, habs]
  rw [if_neg hcond, max_eq_right hle]

/-- Helper: under the single-cell degenerate conditions the raw kernel sum
of the `alpha and phi` branch is exactly zero. -/
theorem singleCell_rawSum_zero (app ares maxv minv : ℝ) (happ : 0 < app)
    (hmaxv : 0 ≤ maxv) (hminv : minv < 0) (hkey : 2 * maxv < app) :
    rawSum_alpha_phi app ares maxv minv = 0 := by
  unfold rawSum_alpha_phi
  rw [singleCellWidth app maxv happ hmaxv hkey]
  simp [Finset.sum_range_one,
    singleCellProfile_zero app maxv minv happ hmaxv hminv hkey]

/-- Helper: the concrete geometry `expZeroKernel` realises a raw kernel
weight sum of exactly zero in the `alpha and phi` branch. -/
theorem expZeroKernel_rawSum_zero :
    rawSum_alpha_phi (anglePerPixel expZeroKernel) (alphaRes expZeroKernel)
      (maxHw expZeroKernel) (minHw expZeroKernel) = 0 := by
  have happ : anglePerPixel expZeroKernel = Real.arctan 1000 := by
    unfold anglePerPixel expZeroKernel arctan2
    norm_num
  have hmax : maxHw expZeroKernel = Real.arctan (11 / 2000) := by
    unfold maxHw expZeroKernel arctan2
    norm_num
  have hmin : minHw expZeroKernel = Real.arctan (-(1 / 2000)) := by
    unfold minHw expZeroKernel arctan2
    norm_num
  have h1000 : (0 : ℝ) < Real.arctan 1000 := by
    have h := Real.arctan_strictMono (show (0 : ℝ) < 1000 by norm_num)
    rwa [Real.arctan_zero] at h
  have hmaxnn : (0 : ℝ) ≤ Real.arctan (11 / 2000) := by
    have h := Real.arctan_strictMono.monotone (show (0 : ℝ) ≤ 11 / 2000 by norm_num)
    rwa [Real.arctan_zero] at h
  have hminneg : Real.arctan (-(1 / 2000)) < 0 := by
    have h := Real.arctan_strictMono (show (-(1 / 2000) : ℝ) < 0 by norm_num)
    rwa [Real.arctan_zero] at h
  have hkey : 2 * Real.arctan (11 / 2000) < Real.arctan 1000 := by
    rw [Real.two_mul_arctan (by norm_num) (by norm_num)]
    exact Real.arctan_strictMono (by norm_num)
  rw [happ, hmax, hmin]
  exact singleCell_rawSum_zero _ _ _ _ h1000 hmaxnn hminneg hkey

/-- Claim C2: for every geometry and detector image, when the raw
(pre-normalisation) 2-D kernel weight sum of the angular branch taken by
`apply_fast_resolution` is exactly zero, the function returns its input
image identically (the `norm == 0.0` early return at generic.py lines
145-146, 167-168 and 180-181), instead of dividing by zero. -/
theorem apply_fast_resolution_zero_kernel_fallback (e : GenericSANS) (data : Image ℝ) :
    (rawSum_alpha_phi (anglePerPixel e) (alphaRes e) (maxHw e) (minHw e) = 0 →
      apply_fast_resolution e data false true true = data) ∧
    (rawSum_phi (anglePerPixel e) (maxHw e) (minHw e) = 0 →
      apply_fast_resolution e data false false true = data) ∧
    (rawSum_alpha (anglePerPixel e) (alphaRes e) = 0 →
      apply_fast_resolution e data false true false = data) := by
  refine ⟨fun h => ?_, fun h => ?_, fun h => ?_⟩ <;>
    simp [apply_fast_resolution, smear_alpha_phi, smear_phi, smear_alpha, h]

/-- Witness for `apply_fast_resolution_zero_kernel_fallback`: the concrete
geometry `expZeroKernel` has raw kernel sum exactly zero, and
`apply_fast_resolution` returns the concrete image `dataR` unchanged on
it. -/
theorem apply_fast_resolution_zero_kernel_fallback_witness :
    rawSum_alpha_phi (anglePerPixel expZeroKernel) (alphaRes expZeroKernel)
      (maxHw expZeroKernel) (minHw expZeroKernel) = 0 ∧
      apply_fast_resolution expZeroKernel dataR false true true = dataR :=
  ⟨expZeroKernel_rawSum_zero,
    (apply_fast_resolution_zero_kernel_fallback expZeroKernel dataR).1
      expZeroKernel_rawSum_zero⟩

/-- Witness for `kernel_normalization`: a concrete rational geometry
(`angle_per_pixel = 1`, `alpha_res = 1`, `max_hw = 1`, `min_hw = 1/2`)
whose raw kernel sum is non-zero, with the normalised sum within `1e-9`
of 1. -/
theorem kernel_normalization_witness :
    rawSum_alpha_phi (1 : ℚ) 1 1 (1 / 2) ≠ 0 ∧
      |normSum_alpha_phi (1 : ℚ) 1 1 (1 / 2) - 1| ≤ 1 / 1000000000 := by
  have habs : |(3 : ℚ) / 2| = 3 / 2 := abs_of_nonneg (by norm_num)
  have hw0 : kernel_width (1 : ℚ) 1 = 3 := by norm_num [kernel_width, truncInt]
  have hh0 : kernel_height (1 : ℚ) 1 = 3 := by norm_num [kernel_height, truncInt]
  have hw : (kernel_width (1 : ℚ) 1).toNat = 3 := by rw [hw0]; rfl
  have hh : (kernel_height (1 : ℚ) 1).toNat = 3 := by rw [hh0]; rfl
  have hraw : rawSum_alpha_phi (1 : ℚ) 1 1 (1 / 2) = 3 := by
    rw [rawSum_alpha_phi, hw, hh]
    rw [Finset.sum_range_succ, Finset.sum_range_succ, Finset.sum_range_one]
    norm_num [Finset.sum_range_succ, Finset.sum_range_one, phiProfile, linspace, habs, max_def]
  have hne : rawSum_alpha_phi (1 : ℚ) 1 1 (1 / 2) ≠ 0 := by rw [hraw]; norm_num
  exact ⟨hne, (kernel_normalization 1 1 1 (1 / 2)).1 hne⟩

/-- Claim C4, counterexample: for `sample_size = 60 > guide_size = 50` at
collimation length 10000 the plateau width of the azimuth trapezoid built
by `res_phi` is `2 * arctan2((50 - 60)/2, 10000) < 0` — the plateau
half-width is negative, not clamped to zero as claimed. -/
theorem res_phi_negative_plateau_counterexample :
    (res_phi expWideSample).middle < 0 := by
  have hmid : (res_phi expWideSample).middle = 2 * Real.arctan (-(1 / 2000)) := by
    unfold res_phi expWideSample cfg50 arctan2
    norm_num
  have hneg : Real.arctan (-(1 / 2000)) < 0 := by
    have h := Real.arctan_strictMono (show (-(1 / 2000) : ℝ) < 0 by norm_num)
    rwa [Real.arctan_zero] at h
  rw [hmid]
  linarith

/-- Claim C4 (amended): `res_phi` applies no clamping: the plateau width is
`2 * arctan((guide_size - sample_size) / 2 / collimation_length)` and the
flanks are always equal; at `sample_size = guide_size` the plateau
collapses to zero, degenerating the shape to a pure triangle without any
error (the builder is a total function); for `sample_size > guide_size`
the plateau width becomes negative. -/
theorem res_phi_plateau (e : GenericSANS) (hL : 0 < e.collimation_length) :
    (res_phi e).middle =
      2 * Real.arctan ((e.config.guide_size - e.sample_size) / 2 / e.collimation_length) ∧
    (res_phi e).left = (res_phi e).right ∧
    (e.sample_size = e.config.guide_size → (res_phi e).middle = 0) ∧
    (e.config.guide_size < e.sample_size → (res_phi e).middle < 0) := by
  have harc : arctan2 ((e.config.guide_size - e.sample_size) / 2) e.collimation_length =
      Real.arctan ((e.config.guide_size - e.sample_size) / 2 / e.collimation_length) := by
    unfold arctan2
    rw [if_pos hL]
  refine ⟨?_, rfl, fun hs => ?_, fun hs => ?_⟩
  · show 2 * arctan2 ((e.config.guide_size - e.sample_size) / 2) e.collimation_length = _
    rw [harc]
  · show 2 * arctan2 ((e.config.guide_size - e.sample_size) / 2) e.collimation_length = 0
    rw [harc, hs]
    simp [sub_self, Real.arctan_zero]
  · show 2 * arctan2 ((e.config.guide_size - e.sample_size) / 2) e.collimation_length < 0
    rw [harc]
    have harg : (e.config.guide_size - e.sample_size) / 2 / e.collimation_length < 0 := by
      apply div_neg_of_neg_of_pos _ hL
      linarith
    have h := Real.arctan_strictMono harg
    rw [Real.arctan_zero] at h
    linarith

/-- Witness for `res_phi_plateau`: at `sample_size = guide_size = 50` the
plateau width is exactly zero. -/
theorem res_phi_plateau_witness :
    (0 : ℝ) < expEqSample.collimation_length ∧
      expEqSample.sample_size = expEqSample.config.guide_size ∧
      (res_phi expEqSample).middle = 0 := by
  have hL : (0 : ℝ) < expEqSample.collimation_length := by norm_num [expEqSample]
  have hs : expEqSample.sample_size = expEqSample.config.guide_size := by
    norm_num [expEqSample, cfg50]
  exact ⟨hL, hs, (res_phi_plateau expEqSample hL).2.2.1 hs⟩

/-- Claim C6, counterexample: constructing `GenericSANS` with a
sample-to-detector distance of zero succeeds — the constructor performs no
validation — and the later geometry derivation silently yields the pixel
angular size `π/2` (`arctan2(positive, 0) = π/2`) instead of raising an
eager configuration error. -/
theorem zero_distance_tolerated_counterexample :
    expZeroDistance.detector_distance = 0 ∧
      anglePerPixel expZeroDistance = Real.pi / 2 := by
  have hd : expZeroDistance.detector_distance = 0 := by
    norm_num [expZeroDistance, mkGenericSANS, m, mm]
  have hy : 0 < expZeroDistance.config.detector_size /
      (expZeroDistance.config.detector_pixels : ℝ) := by
    norm_num [expZeroDistance, mkGenericSANS, mkConfig, mm]
  refine ⟨hd, ?_⟩
  unfold anglePerPixel arctan2
  rw [hd]
  rw [if_neg (lt_irrefl (0 : ℝ)), if_neg (lt_irrefl (0 : ℝ)), if_pos hy]

/-- Claim C6 (amended): a zero sample-to-detector distance raises nothing
at construction and is silently tolerated by the later geometry
derivation, where the pixel angular size degenerates to `π/2`; a zero
pixel count likewise raises nothing at construction and fails only later,
at use time, by division by zero. -/
theorem anglePerPixel_zero_distance (e : GenericSANS)
    (hd : e.detector_distance = 0)
    (hy : 0 < e.config.detector_size / (e.config.detector_pixels : ℝ)) :
    anglePerPixel e = Real.pi / 2 := by
  unfold anglePerPixel arctan2
  rw [hd]
  rw [if_neg (lt_irrefl (0 : ℝ)), if_neg (lt_irrefl (0 : ℝ)), if_pos hy]

/-- Witness for `anglePerPixel_zero_distance`: the concrete zero-distance
instrument `expZeroDistance`. -/
theorem anglePerPixel_zero_distance_witness :
    expZeroDistance.detector_distance = 0 ∧
      0 < expZeroDistance.config.detector_size /
        (expZeroDistance.config.detector_pixels : ℝ) ∧
      anglePerPixel expZeroDistance = Real.pi / 2 := by
  have hd : expZeroDistance.detector_distance = 0 := by
    norm_num [expZeroDistance, mkGenericSANS, m, mm]
  have hy : 0 < expZeroDistance.config.detector_size /
      (expZeroDistance.config.detector_pixels : ℝ) := by
    norm_num [expZeroDistance, mkGenericSANS, mkConfig, mm]
  exact ⟨hd, hy, anglePerPixel_zero_distance expZeroDistance hd hy⟩

/-- Claim C7: for every positive collimation length the incidence-angle
distribution built by `res_alpha` is a gate spanning exactly from
`alpha_i - arctan((guide_size/2) / collimation_length)` to
`alpha_i + arctan((guide_size/2) / collimation_length)`. -/
theorem res_alpha_gate_span (e : GenericSANS) (hL : 0 < e.collimation_length) :
    (res_alpha e).xmin =
      e.alpha_i - Real.arctan (e.config.guide_size / 2 / e.collimation_length) ∧
    (res_alpha e).xmax =
      e.alpha_i + Real.arctan (e.config.guide_size / 2 / e.collimation_length) := by
  have harc : arctan2 (e.config.guide_size / 2) e.collimation_length =
      Real.arctan (e.config.guide_size / 2 / e.collimation_length) := by
    unfold arctan2
    rw [if_pos hL]
  constructor
  · show e.alpha_i - arctan2 (e.config.guide_size / 2) e.collimation_length = _
    rw [harc]
  · show e.alpha_i + arctan2 (e.config.guide_size / 2) e.collimation_length = _
    rw [harc]

/-- Witness for `res_alpha_gate_span`: the spec's test geometry
`aperture = 50`, `collimation = 10000` (consistent units), whose gate full
span is `2 * arctan(25/10000)`. -/
theorem res_alpha_gate_span_witness :
    (0 : ℝ) < exp50.collimation_length ∧
      (res_alpha exp50).xmax - (res_alpha exp50).xmin =
        2 * Real.arctan (25 / 10000) := by
  have hL : (0 : ℝ) < exp50.collimation_length := by norm_num [exp50]
  obtain ⟨h1, h2⟩ := res_alpha_gate_span exp50 hL
  refine ⟨hL, ?_⟩
  rw [h1, h2]
  have harg : exp50.config.guide_size / 2 / exp50.collimation_length = 25 / 10000 := by
    norm_num [exp50, cfg50]
  rw [harg]
  ring

/-- Claim C5, counterexample: for `ResolutionOptions(5, 0, -1)` the
negative azimuth axis routes the run through `apply_fast_resolution` with
the azimuth flag set, but the run it is applied to is not plain
(non-resolved): the simulation still binds the wavelength distribution
with 5 bins, because `runGISANS` builds the simulation with
`GISANS(resopts)`, which adds every positive axis, in the fast branch
too. -/
theorem fast_axis_run_not_plain_counterexample :
    mixedOpts.phi_bins < 0 ∧
      runGISANS engine0 exp50 true mixedOpts =
        apply_fast_resolution exp50 (engine0 (GISANS exp50 true mixedOpts))
          false false true ∧
      (GISANS exp50 true mixedOpts).distributions ≠ [] := by
  refine ⟨by decide, rfl, ?_⟩
  have h1 : mixedOpts.wavelength_bins > 0 := by decide
  have h2 : ¬ (mixedOpts.alpha_bins > 0) := by decide
  have h3 : ¬ (mixedOpts.phi_bins > 0) := by decide
  simp [GISANS, h1, h2, h3]

/-- Claim C5 (amended): for every `ResolutionOptions` and axis, a bin count
`> 0` binds that axis's distribution to the engine's corresponding named
parameter with exactly that bin count; a bin count `< 0` leaves the axis
unbound and routes the run image through `apply_fast_resolution` with that
axis's flag set (the run still binds any other axes with positive bin
counts); a bin count `== 0` causes neither a binding nor a fast flag. -/
theorem resolution_strategy_selection (engine : GISASSim → Image ℝ)
    (e : GenericSANS) (avg : Bool) (r : ResolutionOptions) :
    (0 < r.wavelength_bins →
      (BeamParameter.BeamWavelength, Distribution1D.trapezoid (res_wavelength e),
        r.wavelength_bins) ∈ (GISANS e avg r).distributions) ∧
    (0 < r.alpha_bins →
      (BeamParameter.BeamInclinationAngle, Distribution1D.gate (res_alpha e),
        r.alpha_bins) ∈ (GISANS e avg r).distributions) ∧
    (0 < r.phi_bins →
      (BeamParameter.BeamAzimuthalAngle, Distribution1D.trapezoid (res_phi e),
        r.phi_bins) ∈ (GISANS e avg r).distributions) ∧
    (r.wavelength_bins = 0 →
      (∀ d n, (BeamParameter.BeamWavelength, d, n) ∉ (GISANS e avg r).distributions) ∧
        decide (r.wavelength_bins < 0) = false) ∧
    (r.alpha_bins = 0 →
      (∀ d n, (BeamParameter.BeamInclinationAngle, d, n) ∉ (GISANS e avg r).distributions) ∧
        decide (r.alpha_bins < 0) = false) ∧
    (r.phi_bins = 0 →
      (∀ d n, (BeamParameter.BeamAzimuthalAngle, d, n) ∉ (GISANS e avg r).distributions) ∧
        decide (r.phi_bins < 0) = false) ∧
    (r.wavelength_bins < 0 →
      (∀ d n, (BeamParameter.BeamWavelength, d, n) ∉ (GISANS e avg r).distributions) ∧
        runGISANS engine e avg r =
          apply_fast_resolution e (engine (GISANS e avg r)) true
            (decide (r.alpha_bins < 0)) (decide (r.phi_bins < 0))) ∧
    (r.alpha_bins < 0 →
      (∀ d n, (BeamParameter.BeamInclinationAngle, d, n) ∉ (GISANS e avg r).distributions) ∧
        runGISANS engine e avg r =
          apply_fast_resolution e (engine (GISANS e avg r))
            (decide (r.wavelength_bins < 0)) true (decide (r.phi_bins < 0))) ∧
    (r.phi_bins < 0 →
      (∀ d n, (BeamParameter.BeamAzimuthalAngle, d, n) ∉ (GISANS e avg r).distributions) ∧
        runGISANS engine e avg r =
          apply_fast_resolution e (engine (GISANS e avg r))
            (decide (r.wavelength_bins < 0)) (decide (r.alpha_bins < 0)) true) := by
  refine ⟨fun h => ?_, fun h => ?_, fun h => ?_, fun h => ⟨fun d n => ?_, ?_⟩,
    fun h => ⟨fun d n => ?_, ?_⟩, fun h => ⟨fun d n => ?_, ?_⟩,
    fun h => ⟨fun d n => ?_, ?_⟩, fun h => ⟨fun d n => ?_, ?_⟩,
    fun h => ⟨fun d n => ?_, ?_⟩⟩
  · simp only [GISANS, gt_iff_lt, h, if_true, List.nil_append]
    split_ifs <;> simp
  · simp only [GISANS, gt_iff_lt, h, if_true, List.nil_append]
    split_ifs <;> simp
  · simp only [GISANS, gt_iff_lt, h, if_true, List.nil_append]
    split_ifs <;> simp
  · have hno : ¬ (r.wavelength_bins > 0) := by omega
    simp only [GISANS, hno, if_false, List.nil_append]
    split_ifs <;> simp
  · exact decide_eq_false (by omega)
  · have hno : ¬ (r.alpha_bins > 0) := by omega
    simp only [GISANS, hno, if_false]
    split_ifs <;> simp
  · exact decide_eq_false (by omega)
  · have hno : ¬ (r.phi_bins > 0) := by omega
    simp only [GISANS, hno, if_false]
    split_ifs <;> simp
  · exact decide_eq_false (by omega)
  · have hno : ¬ (r.wavelength_bins > 0) := by omega
    simp only [GISANS, hno, if_false, List.nil_append]
    split_ifs <;> simp
  · have hd : decide (r.wavelength_bins < 0) = true := decide_eq_true h
    simp [runGISANS, hd]
  · have hno : ¬ (r.alpha_bins > 0) := by omega
    simp only [GISANS, hno, if_false]
    split_ifs <;> simp
  · have hd : decide (r.alpha_bins < 0) = true := decide_eq_true h
    simp [runGISANS, hd]
  · have hno : ¬ (r.phi_bins > 0) := by omega
    simp only [GISANS, hno, if_false]
    split_ifs <;> simp
  · have hd : decide (r.phi_bins < 0) = true := decide_eq_true h
    simp [runGISANS, hd]

/-- Witness for `resolution_strategy_selection`: with
`ResolutionOptions(3, 0, 0)` the wavelength distribution is bound with
exactly 3 bins. -/
theorem resolution_strategy_selection_witness :
    (0 : ℤ) < (ResolutionOptions.mk 3 0 0).wavelength_bins ∧
      (BeamParameter.BeamWavelength, Distribution1D.trapezoid (res_wavelength exp50),
        (ResolutionOptions.mk 3 0 0).wavelength_bins) ∈
        (GISANS exp50 true (ResolutionOptions.mk 3 0 0)).distributions :=
  ⟨by decide,
    (resolution_strategy_selection engine0 exp50 true (ResolutionOptions.mk 3 0 0)).1
      (by decide)⟩

end BaTools
